import Mathlib

/-!
Verification of the metravel-explore geo-filtering core and API client.

The definitions below are shallow embeddings of the TypeScript sources:
  - the geographic utilities (getDistanceMiles, getBoundingBox,
    bboxToStrapiFilters) from the shared geo module,
  - the nearby-locations pipeline of useNearbyLocations
    (src/mobile/hooks/useLocations.ts),
  - the request classification of apiRequest and the query built by
    getNearbyLocations (src/mobile/data/loaders.ts),
  - sanitizeLocation and the search handlers of the two LocationMap
    components (mobile and web).

JavaScript numbers are idealized as real numbers, except where
non-finite values matter (sanitizeLocation), where an explicit
JS-number type with NaN and infinities is used.
-/

namespace MetravelExplore

open Real

/-- Source constant EARTH_RADIUS_MILES = 3958.8. -/
noncomputable def EARTH_RADIUS_MILES : ℝ := 3958.8

/-- Source constant MILES_PER_DEGREE_LAT = 69. -/
noncomputable def MILES_PER_DEGREE_LAT : ℝ := 69

/-- Source type Coordinates: latitude and longitude in degrees. -/
structure Coordinates where
  latitude : ℝ
  longitude : ℝ

/-- Source type BoundingBox. -/
structure BoundingBox where
  minLat : ℝ
  maxLat : ℝ
  minLng : ℝ
  maxLng : ℝ

/-- JavaScript Math.atan2(y, x), by its standard case analysis. In the
haversine code below it is only ever applied to nonnegative arguments. -/
noncomputable def atan2 (y x : ℝ) : ℝ :=
  if 0 < x then arctan (y / x)
  else if x < 0 ∧ 0 ≤ y then arctan (y / x) + π
  else if x < 0 then arctan (y / x) - π
  else if 0 < y then π / 2
  else if y < 0 then -(π / 2)
  else 0

/-- The local helper toRad of getDistanceMiles: degrees to radians. -/
noncomputable def toRad (deg : ℝ) : ℝ := deg * π / 180

/-- The intermediate value `a` computed inside getDistanceMiles:
sin(dLat/2)^2 + cos(lat1) * cos(lat2) * sin(dLng/2)^2, with dLat and
dLng the coordinate differences in radians. -/
noncomputable def havA (p q : Coordinates) : ℝ :=
  sin (toRad (q.latitude - p.latitude) / 2) ^ 2 +
    cos (toRad p.latitude) * cos (toRad q.latitude) *
      sin (toRad (q.longitude - p.longitude) / 2) ^ 2

/-- getDistanceMiles(from, to): haversine distance in miles, exactly as
in the source: c = 2 * atan2(sqrt(a), sqrt(1 - a)); return R * c. -/
noncomputable def getDistanceMiles (p q : Coordinates) : ℝ :=
  EARTH_RADIUS_MILES * (2 * atan2 (Real.sqrt (havA p q)) (Real.sqrt (1 - havA p q)))

/-- getBoundingBox(center, radiusMiles), exactly as in the source. -/
noncomputable def getBoundingBox (center : Coordinates) (radiusMiles : ℝ) : BoundingBox :=
  { minLat := center.latitude - radiusMiles / MILES_PER_DEGREE_LAT
    maxLat := center.latitude + radiusMiles / MILES_PER_DEGREE_LAT
    minLng := center.longitude -
      radiusMiles / (MILES_PER_DEGREE_LAT * cos (center.latitude * π / 180))
    maxLng := center.longitude +
      radiusMiles / (MILES_PER_DEGREE_LAT * cos (center.latitude * π / 180)) }

/-- The Strapi filter object produced by bboxToStrapiFilters: the four
bounds under mapData.latitude and mapData.longitude. -/
structure StrapiGeoFilters where
  latGte : ℝ
  latLte : ℝ
  lngGte : ℝ
  lngLte : ℝ

/-- bboxToStrapiFilters(bbox), exactly as in the source. -/
def bboxToStrapiFilters (bbox : BoundingBox) : StrapiGeoFilters :=
  { latGte := bbox.minLat
    latLte := bbox.maxLat
    lngGte := bbox.minLng
    lngLte := bbox.maxLng }

/-- The mapData coordinate of a Location record as used by the
nearby-locations pipeline. -/
structure MapData where
  latitude : ℝ
  longitude : ℝ

/-- A Location record fetched from the CMS, abstracted to the fields the
nearby pipeline reads: an identity and the embedded mapData coordinate. -/
structure Location where
  documentId : ℕ
  mapData : MapData

/-- A NearbyLocation: the location spread together with its computed
distance, as built by the map step of useNearbyLocations. -/
structure NearbyLocation where
  base : Location
  distance : ℝ

/-- The map step of useNearbyLocations: decorate a location with
getDistanceMiles(userLocation, location.mapData). -/
noncomputable def decorate (userLocation : Coordinates) (l : Location) : NearbyLocation :=
  { base := l
    distance := getDistanceMiles userLocation
      { latitude := l.mapData.latitude, longitude := l.mapData.longitude } }

noncomputable instance : DecidableRel
    (fun a b : NearbyLocation => a.distance ≤ b.distance) :=
  fun a b => inferInstanceAs (Decidable (a.distance ≤ b.distance))

/-- The nearby-locations pipeline of useNearbyLocations:
map (add distance), filter (distance ≤ radiusMiles), then sort
ascending by distance. The JavaScript comparator
(a, b) => a.distance - b.distance denotes a stable sort ascending by
distance (Array.prototype.sort is specified stable), embedded as
insertion sort with respect to distance ≤ distance. -/
noncomputable def nearbyLocations (userLocation : Coordinates) (radiusMiles : ℝ)
    (data : List Location) : List NearbyLocation :=
  List.insertionSort (fun a b => a.distance ≤ b.distance)
    ((data.map (decorate userLocation)).filter
      (fun l => decide (l.distance ≤ radiusMiles)))

/-! ### Basic facts about the haversine embedding -/

theorem atan2_zero_one : atan2 0 1 = 0 := by
  simp [atan2]

theorem havA_self (p : Coordinates) : havA p p = 0 := by
  simp [havA, toRad]

theorem getDistanceMiles_self (p : Coordinates) : getDistanceMiles p p = 0 := by
  simp [getDistanceMiles, havA_self, atan2_zero_one]

/-- Claim C8: for every point p, getDistanceMiles(p, p) equals 0. -/
theorem c8_distance_self_eq_zero (p : Coordinates) : getDistanceMiles p p = 0 :=
  getDistanceMiles_self p

/-! ### Claim C7: bounding box brackets the center

The claim quantifies over every center coordinate. It fails when the
cosine of the latitude is negative (latitude beyond 90 degrees in
absolute value, which the source never rejects): the longitude offset
then is negative and minLng exceeds the center longitude. At latitudes
strictly between -90 and 90 degrees it holds. -/

theorem c7_counterexample :
    ¬ ((getBoundingBox { latitude := 180, longitude := 0 } 69).minLng ≤
        (Coordinates.mk 180 0).longitude) := by
  have h : (180 : ℝ) * π / 180 = π := by ring
  simp only [getBoundingBox, MILES_PER_DEGREE_LAT, h, Real.cos_pi]
  norm_num

/-- Claim C7 (amended): for every center with latitude strictly between
-90 and 90 degrees and every positive radius, the box returned by
getBoundingBox satisfies minLat ≤ latitude ≤ maxLat and
minLng ≤ longitude ≤ maxLng. -/
theorem c7_bounding_box_brackets_center (center : Coordinates) (radiusMiles : ℝ)
    (hlat₁ : -90 < center.latitude) (hlat₂ : center.latitude < 90)
    (hr : 0 < radiusMiles) :
    (getBoundingBox center radiusMiles).minLat ≤ center.latitude ∧
      center.latitude ≤ (getBoundingBox center radiusMiles).maxLat ∧
      (getBoundingBox center radiusMiles).minLng ≤ center.longitude ∧
      center.longitude ≤ (getBoundingBox center radiusMiles).maxLng := by
  have hpi := Real.pi_pos
  have hcos : 0 < cos (center.latitude * π / 180) := by
    apply Real.cos_pos_of_mem_Ioo
    constructor
    · have : 0 < (center.latitude + 90) * π := by
        apply mul_pos (by linarith) hpi
      nlinarith
    · have : 0 < (90 - center.latitude) * π := by
        apply mul_pos (by linarith) hpi
      nlinarith
  have h69 : (0 : ℝ) < MILES_PER_DEGREE_LAT := by norm_num [MILES_PER_DEGREE_LAT]
  have hlatoff : 0 < radiusMiles / MILES_PER_DEGREE_LAT := div_pos hr h69
  have hlngoff :
      0 < radiusMiles / (MILES_PER_DEGREE_LAT * cos (center.latitude * π / 180)) :=
    div_pos hr (mul_pos h69 hcos)
  refine ⟨?_, ?_, ?_, ?_⟩ <;> simp only [getBoundingBox] <;> linarith

theorem c7_witness :
    (getBoundingBox { latitude := 0, longitude := 0 } 1).minLat ≤
        (Coordinates.mk 0 0).latitude ∧
      (Coordinates.mk 0 0).latitude ≤
        (getBoundingBox { latitude := 0, longitude := 0 } 1).maxLat ∧
      (getBoundingBox { latitude := 0, longitude := 0 } 1).minLng ≤
        (Coordinates.mk 0 0).longitude ∧
      (Coordinates.mk 0 0).longitude ≤
        (getBoundingBox { latitude := 0, longitude := 0 } 1).maxLng :=
  c7_bounding_box_brackets_center { latitude := 0, longitude := 0 } 1
    (by norm_num) (by norm_num) (by norm_num)

/-! ### Claim C1: every returned location is within the radius -/

/-- Claim C1: every location in the nearby-locations result has its
computed distance at most the requested radius in miles. -/
theorem c1_nearby_within_radius (userLocation : Coordinates) (radiusMiles : ℝ)
    (data : List Location) (l : NearbyLocation)
    (hl : l ∈ nearbyLocations userLocation radiusMiles data) :
    l.distance ≤ radiusMiles := by
  unfold nearbyLocations at hl
  rw [(List.perm_insertionSort _ _).mem_iff] at hl
  exact of_decide_eq_true (List.mem_filter.mp hl).2

theorem c1_witness :
    (⟨⟨0, ⟨0, 0⟩⟩, 0⟩ : NearbyLocation) ∈
        nearbyLocations { latitude := 0, longitude := 0 } 1 [⟨0, ⟨0, 0⟩⟩] ∧
      (⟨⟨0, ⟨0, 0⟩⟩, 0⟩ : NearbyLocation).distance ≤ 1 := by
  have h1 : decorate { latitude := 0, longitude := 0 } ⟨0, ⟨0, 0⟩⟩ =
      (⟨⟨0, ⟨0, 0⟩⟩, 0⟩ : NearbyLocation) := by
    simp [decorate, getDistanceMiles_self]
  have h2 : nearbyLocations { latitude := 0, longitude := 0 } 1 [⟨0, ⟨0, 0⟩⟩] =
      [⟨⟨0, ⟨0, 0⟩⟩, 0⟩] := by
    simp [nearbyLocations, h1, List.filter_cons]
  have hmem : (⟨⟨0, ⟨0, 0⟩⟩, 0⟩ : NearbyLocation) ∈
      nearbyLocations { latitude := 0, longitude := 0 } 1 [⟨0, ⟨0, 0⟩⟩] := by
    rw [h2]; exact List.mem_singleton_self _
  exact ⟨hmem, c1_nearby_within_radius _ 1 _ _ hmem⟩

/-! ### Claim C3: result sorted by distance, ties in input order -/

instance : IsTotal NearbyLocation (fun a b => a.distance ≤ b.distance) :=
  ⟨fun a b => le_total a.distance b.distance⟩

instance : IsTrans NearbyLocation (fun a b => a.distance ≤ b.distance) :=
  ⟨fun _ _ _ h₁ h₂ => le_trans h₁ h₂⟩

theorem filter_key_orderedInsert (d : ℝ) (a : NearbyLocation)
    (l : List NearbyLocation) :
    (List.orderedInsert (fun x y : NearbyLocation => x.distance ≤ y.distance) a
        l).filter (fun x => decide (x.distance = d)) =
      if a.distance = d then
        a :: l.filter (fun x => decide (x.distance = d))
      else l.filter (fun x => decide (x.distance = d)) := by
  induction l with
  | nil =>
    by_cases had : a.distance = d <;>
      simp [List.orderedInsert, List.filter_cons, had]
  | cons b t ih =>
    by_cases hab : a.distance ≤ b.distance
    · simp only [List.orderedInsert, if_pos hab]
      by_cases had : a.distance = d <;> by_cases hbd : b.distance = d <;>
        simp [List.filter_cons, had, hbd]
    · have hba : b.distance < a.distance := lt_of_not_le hab
      simp only [List.orderedInsert, if_neg hab]
      by_cases hbd : b.distance = d
      · have had : ¬ a.distance = d := fun h =>
          absurd (hbd.trans h.symm) (ne_of_lt hba)
        simp [List.filter_cons, hbd, had, ih]
      · by_cases had : a.distance = d <;>
          simp [List.filter_cons, hbd, had, ih]

theorem filter_key_insertionSort (d : ℝ) (l : List NearbyLocation) :
    (List.insertionSort (fun x y : NearbyLocation => x.distance ≤ y.distance)
        l).filter (fun x => decide (x.distance = d)) =
      l.filter (fun x => decide (x.distance = d)) := by
  induction l with
  | nil => rfl
  | cons a t ih =>
    rw [List.insertionSort, filter_key_orderedInsert, ih, List.filter_cons]
    by_cases had : a.distance = d <;> simp [had]

/-- Claim C3: the nearby-locations result is sorted non-decreasing by
distance, and locations of equal distance keep the relative order they
had before the sort (stability, stated as: filtering the result to any
fixed distance value gives exactly the corresponding filtering of the
pre-sort list, which is in input order). -/
theorem c3_nearby_sorted_stable (userLocation : Coordinates) (radiusMiles : ℝ)
    (data : List Location) :
    (nearbyLocations userLocation radiusMiles data).Sorted
        (fun a b : NearbyLocation => a.distance ≤ b.distance) ∧
      ∀ d : ℝ,
        (nearbyLocations userLocation radiusMiles data).filter
            (fun x => decide (x.distance = d)) =
          ((data.map (decorate userLocation)).filter
              (fun l => decide (l.distance ≤ radiusMiles))).filter
            (fun x => decide (x.distance = d)) :=
  ⟨List.sorted_insertionSort _ _, fun d => filter_key_insertionSort d _⟩

/-! ### API client: apiRequest classification (src/mobile/data/loaders.ts)

The fetch outcome is abstracted to what the try block of apiRequest can
observe: either the promise chain threw an exception carrying a name and
a message (fetch rejection, abort, JSON parse failure), or a response
completed and its body parsed. JSON payloads are abstracted over a type
parameter; a parsed body exposes the optional top-level error object
(data.error) and the optional data field (data.data) that apiRequest
reads, plus the whole body (used when data.data is absent). -/

inductive HTTPMethod
  | GET
  | POST
  | PUT
  | PATCH
  | DELETE
deriving DecidableEq

/-- The Strapi error payload shape: status, name, message. -/
structure StrapiError where
  status : Int
  name : String
  message : String
deriving DecidableEq

/-- A parsed JSON response body, over an abstract JSON value type. -/
structure JsonBody (α : Type) where
  error : Option StrapiError
  dataField : Option α
  whole : α

/-- A success payload: the literal `true` returned for DELETE, or the
JSON value data.data ?? data. -/
inductive ApiData (α : Type)
  | deleted
  | payload (value : α)

/-- The TStrapiResponse result shape of apiRequest, restricted to the
fields it sets: data, success, status and error. -/
structure TStrapiResponse (α : Type) where
  data : Option (ApiData α)
  success : Bool
  status : Int
  error : Option StrapiError

/-- What the awaited fetch inside apiRequest produced. -/
inductive FetchOutcome (α : Type)
  | response (status : Int) (statusText : String) (body : JsonBody α)
  | thrown (name message : String)

/-- Response.ok of the Fetch API: the status is in the 2xx range. -/
def respOk (status : Int) : Bool := 200 ≤ status && status < 300

/-- apiRequest (src/mobile/data/loaders.ts): classify the fetch outcome
into the discriminated TStrapiResponse result, exactly following the
source branches (DELETE special case, non-ok branch with
data.error ?? generic fallback, success branch, catch branch with
AbortError mapped to TimeoutError and everything else to NetworkError). -/
def apiRequest {α : Type} (method : HTTPMethod) (outcome : FetchOutcome α) :
    TStrapiResponse α :=
  match outcome with
  | .response status statusText body =>
    if method = .DELETE then
      if respOk status then
        { data := some .deleted, success := true, status := status, error := none }
      else
        { data := none, success := false, status := status,
          error := some
            { status := status, name := "Error",
              message := "Failed to delete resource" } }
    else if respOk status then
      { data := some (.payload (body.dataField.getD body.whole)), success := true,
        status := status, error := none }
    else
      { data := none, success := false, status := status,
        error := some (body.error.getD
          { status := status, name := "Error",
            message := if statusText = "" then "An error occurred" else statusText }) }
  | .thrown name message =>
    if name = "AbortError" then
      { data := none, success := false, status := 408,
        error := some
          { status := 408, name := "TimeoutError", message := "Request timed out" } }
    else
      { data := none, success := false, status := 500,
        error := some
          { status := 500, name := "NetworkError", message := message } }

/-! ### Claim C4: abort maps to a TimeoutError result -/

/-- Claim C4: when the underlying fetch is aborted by the timeout
(an exception named AbortError), apiRequest catches it and returns a
failure result with error name TimeoutError and status 408 — a value,
never a propagated rejection. -/
theorem c4_abort_yields_timeout (α : Type) (method : HTTPMethod) (message : String) :
    apiRequest method (FetchOutcome.thrown (α := α) "AbortError" message) =
      { data := none, success := false, status := 408,
        error := some
          { status := 408, name := "TimeoutError",
            message := "Request timed out" } } := by
  simp [apiRequest]

/-! ### Claim C5: classification of the remaining failures

As stated the claim fails: for a DELETE request a completed non-2xx
response yields the fixed generic error (name Error, message Failed to
delete resource) even when the response body carries a server error
object. For the other methods the claim holds. -/

/-- A concrete 400 response body carrying a server error object,
exercising the DELETE branch of apiRequest. -/
def body400 : JsonBody Unit :=
  { error := some { status := 400, name := "ValidationError", message := "Invalid data" },
    dataField := none
    whole := () }

theorem c5_counterexample :
    body400.error.isSome = true ∧
      (apiRequest HTTPMethod.DELETE
          (FetchOutcome.response 400 "Bad Request" body400)).error ≠ body400.error := by
  refine ⟨rfl, ?_⟩
  simp [apiRequest, respOk, body400]

/-- Claim C5 (amended): a non-abort exception yields a NetworkError
failure result with status 500, and for every method other than DELETE
a completed non-2xx response yields a failure result with the status of
the response, carrying the server-provided error object of the body
when present and a generic error otherwise. (DELETE responses instead
always get the fixed generic delete error.) -/
theorem c5_error_classification (α : Type) (method : HTTPMethod) :
    (∀ name message : String, name ≠ "AbortError" →
        apiRequest method (FetchOutcome.thrown (α := α) name message) =
          { data := none, success := false, status := 500,
            error := some
              { status := 500, name := "NetworkError", message := message } }) ∧
      (method ≠ HTTPMethod.DELETE →
        ∀ (status : Int) (statusText : String) (body : JsonBody α),
          respOk status = false →
            apiRequest method (FetchOutcome.response status statusText body) =
              { data := none, success := false, status := status,
                error := some (body.error.getD
                  { status := status, name := "Error",
                    message := if statusText = "" then "An error occurred"
                      else statusText }) }) := by
  constructor
  · intro name message hname
    simp [apiRequest, hname]
  · intro hm status statusText body hstatus
    simp [apiRequest, hm, hstatus]

theorem c5_witness :
    apiRequest HTTPMethod.GET (FetchOutcome.thrown (α := Unit) "TypeError" "fetch failed") =
        { data := none, success := false, status := 500,
          error := some
            { status := 500, name := "NetworkError", message := "fetch failed" } } ∧
      apiRequest HTTPMethod.GET
          (FetchOutcome.response (α := Unit) 404 ""
            { error := none, dataField := none, whole := () }) =
        { data := none, success := false, status := 404,
          error := some
            { status := 404, name := "Error", message := "An error occurred" } } := by
  have h1 := (c5_error_classification Unit HTTPMethod.GET).1 "TypeError" "fetch failed"
    (by decide)
  have h2 := (c5_error_classification Unit HTTPMethod.GET).2 (by decide) 404 ""
    { error := none, dataField := none, whole := () } (by decide)
  exact ⟨h1, by simpa using h2⟩

/-! ### Claim C2: the nearby fetch and the bounding box

getNearbyLocations (src/mobile/data/loaders.ts) accepts the bounding
box in its params but never uses it: the find call it issues carries
only pagination pageSize (default 50) and populate *, with no filters.
Its comment states that all locations are fetched and filtered by
distance client-side. The claim that the requested record set depends
on the bounding box therefore fails. -/

/-- GetNearbyLocationsParams of the source. -/
structure GetNearbyLocationsParams where
  bbox : BoundingBox
  pageSize : Option ℕ

/-- A Strapi find query, abstracted to the option fields the loaders
set. -/
structure StrapiQuery where
  filters : Option StrapiGeoFilters
  sort : Option String
  page : Option ℕ
  pageSize : Option ℕ
  populate : String

/-- The query object getNearbyLocations passes to locations.find:
pagination pageSize (default 50) and populate * only. -/
def getNearbyLocationsQuery (params : GetNearbyLocationsParams) : StrapiQuery :=
  { filters := none
    sort := none
    page := none
    pageSize := some (params.pageSize.getD 50)
    populate := "*" }

theorem c2_counterexample :
    getNearbyLocationsQuery { bbox := ⟨0, 1, 0, 1⟩, pageSize := none } =
        getNearbyLocationsQuery { bbox := ⟨2, 3, 4, 5⟩, pageSize := none } ∧
      (⟨0, 1, 0, 1⟩ : BoundingBox) ≠ ⟨2, 3, 4, 5⟩ ∧
      (getNearbyLocationsQuery { bbox := ⟨0, 1, 0, 1⟩, pageSize := none }).filters ≠
        some (bboxToStrapiFilters ⟨0, 1, 0, 1⟩) := by
  refine ⟨rfl, ?_, by simp [getNearbyLocationsQuery]⟩
  intro h
  have h0 : (0 : ℝ) = 2 := congrArg BoundingBox.minLat h
  norm_num at h0

/-- Claim C2 (amended): the nearby-locations fetch ignores the bounding
box entirely — the query it sends carries no filters and is identical
for any two bounding boxes; only the page size (default 50) and
populate * are sent, and filtering happens client-side. -/
theorem c2_query_ignores_bbox (b₁ b₂ : BoundingBox) (pageSize : Option ℕ) :
    getNearbyLocationsQuery { bbox := b₁, pageSize := pageSize } =
        getNearbyLocationsQuery { bbox := b₂, pageSize := pageSize } ∧
      (getNearbyLocationsQuery { bbox := b₁, pageSize := pageSize }).filters = none ∧
      (getNearbyLocationsQuery { bbox := b₁, pageSize := pageSize }).pageSize =
        some (pageSize.getD 50) :=
  ⟨rfl, rfl, rfl⟩

/-! ### Claim C9: 300ms debounce of the geocoding search

Traces are lists of (time in ms, query text) change events. The mobile
handler (handleSearchChange in the mobile LocationMap) calls
searchLocation synchronously whenever the text length exceeds 2, so a
request is issued at the very instant of the change — it is not
debounced. The web surface pipes the query through
useDebouncedValue(searchQuery, 300) before its search effect runs. -/

/-- String.prototype.trim, written over the character list so that it
evaluates inside the kernel: drop whitespace from both ends. -/
def jsTrim (s : String) : String :=
  ⟨((s.toList.dropWhile Char.isWhitespace).reverse.dropWhile
      Char.isWhitespace).reverse⟩

/-- The mobile search path: handleSearchChange issues the geocoding
fetch immediately (same timestamp as the change) when the text length
exceeds 2, the trimmed text is nonempty and an access token is set. -/
def mobileGeocodeRequests (accessToken : String) (events : List (ℕ × String)) :
    List (ℕ × String) :=
  events.filterMap fun e =>
    if e.2.length > 2 ∧ jsTrim e.2 ≠ "" ∧ accessToken ≠ "" then
      some (e.1, jsTrim e.2)
    else none

/-- Modelled from the spec: useDebouncedValue (the hook source is not in
the repository snapshot; only its web call site is). Per the spec the
debounced value takes on an input value once the input has been
unchanged for `delay` ms, so an event followed by another event within
the delay window is superseded and never emitted. -/
def debounceEmissions (delay : ℕ) (events : List (ℕ × String)) : List (ℕ × String) :=
  events.filterMap fun e =>
    if events.all fun e2 => decide (e2.1 ≤ e.1 ∨ e.1 + delay < e2.1) then
      some (e.1 + delay, e.2)
    else none

/-- The web search effect: a geocoding request is issued at each
debounced emission whose trimmed value has length above 2. -/
def webGeocodeRequests (events : List (ℕ × String)) : List (ℕ × String) :=
  (debounceEmissions 300 events).filterMap fun e =>
    if (jsTrim e.2).length > 2 then some (e.1, jsTrim e.2) else none

/-- The 300ms quiet period property the claim asserts: every request is
issued at least 300ms after every change that precedes it. -/
def debouncedAt (requests events : List (ℕ × String)) : Prop :=
  ∀ r ∈ requests, ∀ e ∈ events, e.1 ≤ r.1 → e.1 + 300 ≤ r.1

theorem c9_counterexample :
    ¬ debouncedAt (mobileGeocodeRequests "token" [(0, "abc")]) [(0, "abc")] := by
  intro h
  have hm : ((0 : ℕ), "abc") ∈ mobileGeocodeRequests "token" [(0, "abc")] := by decide
  have := h _ hm (0, "abc") (List.mem_singleton_self _) (Nat.le_refl 0)
  omega

/-- Claim C9 (amended): the web surface debounces the geocoding search
with a 300ms quiet period — every request it issues comes at least
300ms after every preceding change. (The mobile surface does not
debounce: it issues the request at the instant of the change.) -/
theorem c9_web_debounced (events : List (ℕ × String)) :
    debouncedAt (webGeocodeRequests events) events := by
  intro r hr e he hle
  unfold webGeocodeRequests at hr
  rw [List.mem_filterMap] at hr
  obtain ⟨em, hem, hem2⟩ := hr
  unfold debounceEmissions at hem
  rw [List.mem_filterMap] at hem
  obtain ⟨e0, he0, he02⟩ := hem
  by_cases hall : (events.all fun e2 => decide (e2.1 ≤ e0.1 ∨ e0.1 + 300 < e2.1)) = true
  · rw [if_pos hall] at he02
    have hem1 : em.1 = e0.1 + 300 := by
      cases he02; rfl
    by_cases hlen : (jsTrim em.2).length > 2
    · rw [if_pos hlen] at hem2
      have hr1 : r.1 = em.1 := by cases hem2; rfl
      have := List.all_eq_true.mp hall e he
      rcases of_decide_eq_true this with h1 | h2
      · omega
      · omega
    · rw [if_neg hlen] at hem2
      exact absurd hem2 (by simp)
  · rw [if_neg hall] at he02
    exact absurd he02 (by simp)

theorem c9_witness :
    ((300 : ℕ), "abc") ∈ webGeocodeRequests [(0, "abc")] ∧ (0 : ℕ) + 300 ≤ 300 := by
  have hm : ((300 : ℕ), "abc") ∈ webGeocodeRequests [(0, "abc")] := by decide
  exact ⟨hm, c9_web_debounced [(0, "abc")] _ hm (0, "abc") (by decide) (by decide)⟩

/-! ### Claim C10: sanitizeLocation yields finite fields

Both client surfaces define the identical sanitizeLocation over partial
map locations. JavaScript numbers are modelled explicitly here, since
the function exists to reject NaN and the infinities; a missing field is
an Option none (Number.isFinite(undefined) is false). -/

/-- A JavaScript number: a finite value (idealized real), NaN, or an
infinity. -/
inductive JSNum
  | fin (x : ℝ)
  | nan
  | posInf
  | negInf

/-- Number.isFinite. -/
def isFinite : JSNum → Bool
  | .fin _ => true
  | _ => false

/-- The MapLocation shape of both LocationMap components. -/
structure MapLocation where
  longitude : JSNum
  latitude : JSNum
  zoom : JSNum
  pitch : JSNum
  bearing : JSNum
  address : Option String

/-- Partial MapLocation: every numeric field may be absent. -/
structure PartialMapLocation where
  longitude : Option JSNum
  latitude : Option JSNum
  zoom : Option JSNum
  pitch : Option JSNum
  bearing : Option JSNum
  address : Option String

/-- DEFAULT_LOCATION of both LocationMap components. -/
noncomputable def DEFAULT_LOCATION : MapLocation :=
  { longitude := .fin (-122.4194)
    latitude := .fin 37.7749
    zoom := .fin 12
    pitch := .fin 0
    bearing := .fin 0
    address := none }

/-- One field of sanitizeLocation:
Number.isFinite(location?.f) ? location.f! : DEFAULT_LOCATION.f. -/
def sanitizeField (field : Option JSNum) (dflt : JSNum) : JSNum :=
  match field with
  | some j => if isFinite j then j else dflt
  | none => dflt

/-- sanitizeLocation, identical in the mobile and the web LocationMap. -/
noncomputable def sanitizeLocation (location : PartialMapLocation) : MapLocation :=
  { longitude := sanitizeField location.longitude DEFAULT_LOCATION.longitude
    latitude := sanitizeField location.latitude DEFAULT_LOCATION.latitude
    zoom := sanitizeField location.zoom DEFAULT_LOCATION.zoom
    pitch := sanitizeField location.pitch DEFAULT_LOCATION.pitch
    bearing := sanitizeField location.bearing DEFAULT_LOCATION.bearing
    address := location.address }

/-- What the claim asserts of one sanitized field: the result is finite,
a finite input passes through unchanged, and a missing or non-finite
input is replaced by the default. -/
def sanitizesTo (field : Option JSNum) (dflt : ℝ) (result : JSNum) : Prop :=
  isFinite result = true ∧
    (∀ j, field = some j → isFinite j = true → result = j) ∧
    ((field = none ∨ ∃ j, field = some j ∧ isFinite j = false) →
      result = .fin dflt)

theorem sanitizeField_spec (field : Option JSNum) (dflt : ℝ) :
    sanitizesTo field dflt (sanitizeField field (.fin dflt)) := by
  refine ⟨?_, ?_, ?_⟩
  · cases field with
    | none => rfl
    | some j => cases j <;> simp [sanitizeField, isFinite]
  · rintro j rfl hj
    simp [sanitizeField, hj]
  · rintro (rfl | ⟨j, rfl, hj⟩)
    · rfl
    · simp [sanitizeField, hj]

/-- Claim C10: for every partial MapLocation input, each numeric field
of the sanitizeLocation result is a finite number: a finite input field
passes through unchanged and a missing, NaN or infinite field is
replaced by the corresponding default (longitude -122.4194, latitude
37.7749, zoom 12, pitch 0, bearing 0). -/
theorem c10_sanitize_finite (location : PartialMapLocation) :
    sanitizesTo location.longitude (-122.4194) (sanitizeLocation location).longitude ∧
      sanitizesTo location.latitude 37.7749 (sanitizeLocation location).latitude ∧
      sanitizesTo location.zoom 12 (sanitizeLocation location).zoom ∧
      sanitizesTo location.pitch 0 (sanitizeLocation location).pitch ∧
      sanitizesTo location.bearing 0 (sanitizeLocation location).bearing :=
  ⟨sanitizeField_spec location.longitude (-122.4194),
    sanitizeField_spec location.latitude 37.7749,
    sanitizeField_spec location.zoom 12,
    sanitizeField_spec location.pitch 0,
    sanitizeField_spec location.bearing 0⟩

theorem c10_witness :
    (sanitizeLocation
        { longitude := some JSNum.nan, latitude := some (JSNum.fin 1),
          zoom := none, pitch := some JSNum.posInf,
          bearing := some (JSNum.fin 2), address := none }).longitude =
          JSNum.fin (-122.4194) ∧
      (sanitizeLocation
        { longitude := some JSNum.nan, latitude := some (JSNum.fin 1),
          zoom := none, pitch := some JSNum.posInf,
          bearing := some (JSNum.fin 2), address := none }).latitude = JSNum.fin 1 := by
  have h := c10_sanitize_finite
    { longitude := some JSNum.nan, latitude := some (JSNum.fin 1),
      zoom := none, pitch := some JSNum.posInf,
      bearing := some (JSNum.fin 2), address := none }
  exact ⟨h.1.2.2 (Or.inr ⟨JSNum.nan, rfl, rfl⟩),
    h.2.1.2.1 (JSNum.fin 1) rfl rfl⟩

/-! ### Claim C6: getDistanceMiles is the standard haversine distance

The spec-side definition below states the textbook haversine formula
with the arcsine; the source computes the central angle with
atan2(sqrt a, sqrt(1 - a)). The two agree because the intermediate
value a always lies in [0, 1]. -/

/-- The standard haversine great-circle distance in miles with Earth
radius 3958.8, written as in the spec: d = 2 R arcsin(sqrt(a)) with
a = sin(dLat/2)^2 + cos(lat1) cos(lat2) sin(dLng/2)^2. -/
noncomputable def haversineSpec (p q : Coordinates) : ℝ :=
  2 * 3958.8 * arcsin (Real.sqrt
    (sin ((q.latitude - p.latitude) * π / 180 / 2) ^ 2 +
      cos (p.latitude * π / 180) * cos (q.latitude * π / 180) *
        sin ((q.longitude - p.longitude) * π / 180 / 2) ^ 2))

theorem havA_eq_halfsub (p q : Coordinates) :
    havA p q = (1 / 2 - cos (toRad q.latitude - toRad p.latitude) / 2) +
      ((cos (toRad q.latitude - toRad p.latitude) +
          cos (toRad q.latitude + toRad p.latitude)) / 2) *
        sin (toRad (q.longitude - p.longitude) / 2) ^ 2 := by
  have h1 : toRad (q.latitude - p.latitude) / 2 =
      (toRad q.latitude - toRad p.latitude) / 2 := by
    unfold toRad; ring
  have hv : 2 * ((toRad q.latitude - toRad p.latitude) / 2) =
      toRad q.latitude - toRad p.latitude := by ring
  have h2 : sin ((toRad q.latitude - toRad p.latitude) / 2) ^ 2 =
      1 / 2 - cos (toRad q.latitude - toRad p.latitude) / 2 := by
    rw [sin_sq_eq_half_sub, hv]
  have h3 : cos (toRad p.latitude) * cos (toRad q.latitude) =
      (cos (toRad q.latitude - toRad p.latitude) +
        cos (toRad q.latitude + toRad p.latitude)) / 2 := by
    have hcc := Real.cos_add_cos (toRad q.latitude - toRad p.latitude)
      (toRad q.latitude + toRad p.latitude)
    have e1 : ((toRad q.latitude - toRad p.latitude) +
        (toRad q.latitude + toRad p.latitude)) / 2 = toRad q.latitude := by ring
    have e2 : ((toRad q.latitude - toRad p.latitude) -
        (toRad q.latitude + toRad p.latitude)) / 2 = -(toRad p.latitude) := by ring
    rw [e1, e2, Real.cos_neg] at hcc
    linarith
  unfold havA
  rw [h1, h2, h3]

theorem havA_nonneg (p q : Coordinates) : 0 ≤ havA p q := by
  rw [havA_eq_halfsub]
  have hc1 : -1 ≤ cos (toRad q.latitude - toRad p.latitude) := Real.neg_one_le_cos _
  have hc2 : cos (toRad q.latitude - toRad p.latitude) ≤ 1 := Real.cos_le_one _
  have hd1 : -1 ≤ cos (toRad q.latitude + toRad p.latitude) := Real.neg_one_le_cos _
  have hd2 : cos (toRad q.latitude + toRad p.latitude) ≤ 1 := Real.cos_le_one _
  have hs1 : 0 ≤ sin (toRad (q.longitude - p.longitude) / 2) ^ 2 := sq_nonneg _
  have hs2 : sin (toRad (q.longitude - p.longitude) / 2) ^ 2 ≤ 1 :=
    Real.sin_sq_le_one _
  nlinarith [mul_nonneg (by linarith : (0 : ℝ) ≤
        1 - sin (toRad (q.longitude - p.longitude) / 2) ^ 2)
      (by linarith : (0 : ℝ) ≤ 1 - cos (toRad q.latitude - toRad p.latitude)),
    mul_nonneg hs1
      (by linarith : (0 : ℝ) ≤ 1 + cos (toRad q.latitude + toRad p.latitude))]

theorem havA_le_one (p q : Coordinates) : havA p q ≤ 1 := by
  rw [havA_eq_halfsub]
  have hc1 : -1 ≤ cos (toRad q.latitude - toRad p.latitude) := Real.neg_one_le_cos _
  have hc2 : cos (toRad q.latitude - toRad p.latitude) ≤ 1 := Real.cos_le_one _
  have hd1 : -1 ≤ cos (toRad q.latitude + toRad p.latitude) := Real.neg_one_le_cos _
  have hd2 : cos (toRad q.latitude + toRad p.latitude) ≤ 1 := Real.cos_le_one _
  have hs1 : 0 ≤ sin (toRad (q.longitude - p.longitude) / 2) ^ 2 := sq_nonneg _
  have hs2 : sin (toRad (q.longitude - p.longitude) / 2) ^ 2 ≤ 1 :=
    Real.sin_sq_le_one _
  nlinarith [mul_nonneg (by linarith : (0 : ℝ) ≤
        1 - sin (toRad (q.longitude - p.longitude) / 2) ^ 2)
      (by linarith : (0 : ℝ) ≤ 1 + cos (toRad q.latitude - toRad p.latitude)),
    mul_nonneg hs1
      (by linarith : (0 : ℝ) ≤ 1 - cos (toRad q.latitude + toRad p.latitude))]

/-- For a in [0, 1] the source form of the central angle agrees with the
arcsine form of the textbook formula. -/
theorem atan2_sqrt_eq_arcsin (a : ℝ) (h0 : 0 ≤ a) (h1 : a ≤ 1) :
    atan2 (Real.sqrt a) (Real.sqrt (1 - a)) = arcsin (Real.sqrt a) := by
  rcases lt_or_eq_of_le h1 with hlt | heq
  · have hpos : 0 < Real.sqrt (1 - a) := Real.sqrt_pos.mpr (by linarith)
    rw [atan2, if_pos hpos]
    have hsa : Real.sqrt a < 1 := by
      rw [show (1 : ℝ) = Real.sqrt 1 from Real.sqrt_one.symm]
      exact Real.sqrt_lt_sqrt h0 hlt
    rw [Real.arcsin_eq_arctan
      (Set.mem_Ioo.mpr ⟨by linarith [Real.sqrt_nonneg a], hsa⟩)]
    rw [Real.sq_sqrt h0]
  · subst heq
    norm_num [atan2, Real.sqrt_one, Real.arcsin_one]

theorem getDistanceMiles_eq_haversineSpec (p q : Coordinates) :
    getDistanceMiles p q = haversineSpec p q := by
  unfold getDistanceMiles EARTH_RADIUS_MILES
  rw [atan2_sqrt_eq_arcsin _ (havA_nonneg p q) (havA_le_one p q)]
  show (3958.8 : ℝ) * (2 * arcsin (Real.sqrt (havA p q))) = haversineSpec p q
  have h : haversineSpec p q = 2 * 3958.8 * arcsin (Real.sqrt (havA p q)) := rfl
  rw [h]; ring

/-! Elementary bounds used for the concrete distances. -/

theorem arcsin_ge_self {t : ℝ} (h0 : 0 ≤ t) (h1 : t ≤ 1) : t ≤ arcsin t := by
  have h2 : sin (arcsin t) = t := Real.sin_arcsin (by linarith) h1
  have h3 : 0 ≤ arcsin t := Real.arcsin_nonneg.mpr h0
  rcases eq_or_lt_of_le h3 with he | hpos
  · rw [← he, Real.sin_zero] at h2
    linarith
  · have := Real.sin_lt hpos
    rw [h2] at this
    exact le_of_lt this

theorem arcsin_le_of_le_sin {t β : ℝ} (ht : t ≤ sin β) (hβ1 : 0 ≤ β)
    (hβ2 : β ≤ π / 2) : arcsin t ≤ β := by
  calc arcsin t ≤ arcsin (sin β) := Real.monotone_arcsin ht
    _ = β := Real.arcsin_sin (by linarith [Real.pi_pos]) hβ2

theorem sin_lower_bound {x lo hi : ℝ} (hlo : lo ≤ x) (hhi : x ≤ hi)
    (hlo0 : 0 ≤ lo) (hhi1 : hi ≤ 1) :
    lo - hi ^ 3 / 6 - hi ^ 4 * (5 / 96) ≤ sin x := by
  have hx0 : 0 ≤ x := le_trans hlo0 hlo
  have hx1 : |x| ≤ 1 := by rw [abs_of_nonneg hx0]; linarith
  have h1 := neg_le_of_abs_le (Real.sin_bound hx1)
  rw [abs_of_nonneg hx0] at h1
  have h3 : x ^ 3 ≤ hi ^ 3 := pow_le_pow_left₀ hx0 hhi 3
  have h4 : x ^ 4 ≤ hi ^ 4 := pow_le_pow_left₀ hx0 hhi 4
  linarith

theorem sin_upper_bound {x lo hi : ℝ} (hlo : lo ≤ x) (hhi : x ≤ hi)
    (hlo0 : 0 ≤ lo) (hhi1 : hi ≤ 1) :
    sin x ≤ hi - lo ^ 3 / 6 + hi ^ 4 * (5 / 96) := by
  have hx0 : 0 ≤ x := le_trans hlo0 hlo
  have hx1 : |x| ≤ 1 := by rw [abs_of_nonneg hx0]; linarith
  have h1 := le_of_abs_le (Real.sin_bound hx1)
  rw [abs_of_nonneg hx0] at h1
  have h3 : lo ^ 3 ≤ x ^ 3 := pow_le_pow_left₀ hlo0 hlo 3
  have h4 : x ^ 4 ≤ hi ^ 4 := pow_le_pow_left₀ hx0 hhi 4
  linarith

theorem cos_lower_bound {x lo hi : ℝ} (hlo : lo ≤ x) (hhi : x ≤ hi)
    (hlo0 : 0 ≤ lo) (hhi1 : hi ≤ 1) :
    1 - hi ^ 2 / 2 - hi ^ 4 * (5 / 96) ≤ cos x := by
  have hx0 : 0 ≤ x := le_trans hlo0 hlo
  have hx1 : |x| ≤ 1 := by rw [abs_of_nonneg hx0]; linarith
  have h1 := neg_le_of_abs_le (Real.cos_bound hx1)
  rw [abs_of_nonneg hx0] at h1
  have h2 : x ^ 2 ≤ hi ^ 2 := pow_le_pow_left₀ hx0 hhi 2
  have h4 : x ^ 4 ≤ hi ^ 4 := pow_le_pow_left₀ hx0 hhi 4
  linarith

theorem cos_upper_bound {x lo hi : ℝ} (hlo : lo ≤ x) (hhi : x ≤ hi)
    (hlo0 : 0 ≤ lo) (hhi1 : hi ≤ 1) :
    cos x ≤ 1 - lo ^ 2 / 2 + hi ^ 4 * (5 / 96) := by
  have hx0 : 0 ≤ x := le_trans hlo0 hlo
  have hx1 : |x| ≤ 1 := by rw [abs_of_nonneg hx0]; linarith
  have h1 := le_of_abs_le (Real.cos_bound hx1)
  rw [abs_of_nonneg hx0] at h1
  have h2 : lo ^ 2 ≤ x ^ 2 := pow_le_pow_left₀ hlo0 hlo 2
  have h4 : x ^ 4 ≤ hi ^ 4 := pow_le_pow_left₀ hx0 hhi 4
  linarith

/-! Concrete distances of the spec example. The candidate (38, -122) is
beyond 5 miles of the center; the candidate (37.78, -122.41) is at
about 0.6 miles. -/

theorem far_distance_gt_five :
    5 < getDistanceMiles { latitude := 37.7749, longitude := -122.4194 }
      { latitude := 38, longitude := -122 } := by
  have hπl := Real.pi_gt_d6
  have hπu := Real.pi_lt_d6
  have hπ0 := Real.pi_pos
  have hA_eq : havA { latitude := 37.7749, longitude := -122.4194 }
      { latitude := 38, longitude := -122 } =
      sin ((38 - 37.7749) * π / 180 / 2) ^ 2 +
        cos (37.7749 * π / 180) * cos (38 * π / 180) *
          sin ((-122 - -122.4194) * π / 180 / 2) ^ 2 := rfl
  have hx1 : (0.0019643 : ℝ) ≤ (38 - 37.7749) * π / 180 / 2 := by linarith
  have hx2 : ((38 : ℝ) - 37.7749) * π / 180 / 2 ≤ 0.0019644 := by linarith
  have hsin : (0.00196 : ℝ) ≤ sin ((38 - 37.7749) * π / 180 / 2) := by
    have hb := sin_lower_bound hx1 hx2 (by norm_num) (by norm_num)
    have hq : (0.00196 : ℝ) ≤
        0.0019643 - 0.0019644 ^ 3 / 6 - 0.0019644 ^ 4 * (5 / 96) := by norm_num
    linarith
  have hcosX : (0 : ℝ) ≤ cos (37.7749 * π / 180) := by
    apply Real.cos_nonneg_of_mem_Icc
    constructor
    · linarith
    · linarith
  have hcosY : (0 : ℝ) ≤ cos (38 * π / 180) := by
    apply Real.cos_nonneg_of_mem_Icc
    constructor
    · linarith
    · linarith
  have hA_lb : (0.00196 : ℝ) ^ 2 ≤ havA { latitude := 37.7749, longitude := -122.4194 }
      { latitude := 38, longitude := -122 } := by
    rw [hA_eq]
    have h2 : (0.00196 : ℝ) ^ 2 ≤ sin ((38 - 37.7749) * π / 180 / 2) ^ 2 :=
      pow_le_pow_left₀ (by norm_num) hsin 2
    have h3 : 0 ≤ cos (37.7749 * π / 180) * cos (38 * π / 180) *
        sin ((-122 - -122.4194) * π / 180 / 2) ^ 2 :=
      mul_nonneg (mul_nonneg hcosX hcosY) (sq_nonneg _)
    linarith
  have hA0 := havA_nonneg { latitude := 37.7749, longitude := -122.4194 }
    { latitude := 38, longitude := -122 }
  have hA1 := havA_le_one { latitude := 37.7749, longitude := -122.4194 }
    { latitude := 38, longitude := -122 }
  have hsq : (0.00196 : ℝ) ≤ Real.sqrt (havA { latitude := 37.7749, longitude := -122.4194 }
      { latitude := 38, longitude := -122 }) :=
    Real.le_sqrt_of_sq_le hA_lb
  have hsq1 : Real.sqrt (havA { latitude := 37.7749, longitude := -122.4194 }
      { latitude := 38, longitude := -122 }) ≤ 1 := by
    rw [show (1 : ℝ) = Real.sqrt 1 from Real.sqrt_one.symm]
    exact Real.sqrt_le_sqrt hA1
  have harc : (0.00196 : ℝ) ≤ arcsin (Real.sqrt
      (havA { latitude := 37.7749, longitude := -122.4194 }
        { latitude := 38, longitude := -122 })) :=
    le_trans hsq (arcsin_ge_self (Real.sqrt_nonneg _) hsq1)
  have hd : getDistanceMiles { latitude := 37.7749, longitude := -122.4194 }
      { latitude := 38, longitude := -122 } =
      3958.8 * (2 * arcsin (Real.sqrt
        (havA { latitude := 37.7749, longitude := -122.4194 }
          { latitude := 38, longitude := -122 }))) := by
    unfold getDistanceMiles EARTH_RADIUS_MILES
    rw [atan2_sqrt_eq_arcsin _ hA0 hA1]
  rw [hd]
  linarith

set_option maxHeartbeats 2000000 in
theorem near_distance_bounds :
    0.5 < getDistanceMiles { latitude := 37.7749, longitude := -122.4194 }
        { latitude := 37.78, longitude := -122.41 } ∧
      getDistanceMiles { latitude := 37.7749, longitude := -122.4194 }
        { latitude := 37.78, longitude := -122.41 } < 0.7 := by
  have hπl := Real.pi_gt_d6
  have hπu := Real.pi_lt_d6
  have hπ0 := Real.pi_pos
  have hA_eq : havA { latitude := 37.7749, longitude := -122.4194 }
      { latitude := 37.78, longitude := -122.41 } =
      sin ((37.78 - 37.7749) * π / 180 / 2) ^ 2 +
        cos (37.7749 * π / 180) * cos (37.78 * π / 180) *
          sin ((-122.41 - -122.4194) * π / 180 / 2) ^ 2 := rfl
  -- half latitude difference
  have hxl1 : (0.0000445058 : ℝ) ≤ (37.78 - 37.7749) * π / 180 / 2 := by linarith
  have hxl2 : ((37.78 : ℝ) - 37.7749) * π / 180 / 2 ≤ 0.0000445060 := by linarith
  have hsl1 : (0.0000445057 : ℝ) ≤ sin ((37.78 - 37.7749) * π / 180 / 2) := by
    have hb := sin_lower_bound hxl1 hxl2 (by norm_num) (by norm_num)
    have hq : (0.0000445057 : ℝ) ≤
        0.0000445058 - 0.0000445060 ^ 3 / 6 - 0.0000445060 ^ 4 * (5 / 96) := by
      norm_num
    linarith
  have hsl2 : sin ((37.78 - 37.7749) * π / 180 / 2) ≤ 0.0000445061 := by
    have hb := sin_upper_bound hxl1 hxl2 (by norm_num) (by norm_num)
    have hq : (0.0000445060 : ℝ) - 0.0000445058 ^ 3 / 6 +
        0.0000445060 ^ 4 * (5 / 96) ≤ 0.0000445061 := by norm_num
    linarith
  have hsl3 : (1.9807e-9 : ℝ) ≤ sin ((37.78 - 37.7749) * π / 180 / 2) ^ 2 := by
    have h := pow_le_pow_left₀ (by norm_num : (0 : ℝ) ≤ 0.0000445057) hsl1 2
    have hq : (1.9807e-9 : ℝ) ≤ 0.0000445057 ^ 2 := by norm_num
    linarith
  have hsl4 : sin ((37.78 - 37.7749) * π / 180 / 2) ^ 2 ≤ 1.9808e-9 := by
    have h := pow_le_pow_left₀ (by linarith : (0 : ℝ) ≤
      sin ((37.78 - 37.7749) * π / 180 / 2)) hsl2 2
    have hq : (0.0000445061 : ℝ) ^ 2 ≤ 1.9808e-9 := by norm_num
    linarith
  -- half longitude difference
  have hxg1 : (0.0000820304 : ℝ) ≤ (-122.41 - -122.4194) * π / 180 / 2 := by linarith
  have hxg2 : ((-122.41 : ℝ) - -122.4194) * π / 180 / 2 ≤ 0.0000820305 := by linarith
  have hsg1 : (0.0000820303 : ℝ) ≤ sin ((-122.41 - -122.4194) * π / 180 / 2) := by
    have hb := sin_lower_bound hxg1 hxg2 (by norm_num) (by norm_num)
    have hq : (0.0000820303 : ℝ) ≤
        0.0000820304 - 0.0000820305 ^ 3 / 6 - 0.0000820305 ^ 4 * (5 / 96) := by
      norm_num
    linarith
  have hsg2 : sin ((-122.41 - -122.4194) * π / 180 / 2) ≤ 0.0000820306 := by
    have hb := sin_upper_bound hxg1 hxg2 (by norm_num) (by norm_num)
    have hq : (0.0000820305 : ℝ) - 0.0000820304 ^ 3 / 6 +
        0.0000820305 ^ 4 * (5 / 96) ≤ 0.0000820306 := by norm_num
    linarith
  have hsg3 : (6.7289e-9 : ℝ) ≤ sin ((-122.41 - -122.4194) * π / 180 / 2) ^ 2 := by
    have h := pow_le_pow_left₀ (by norm_num : (0 : ℝ) ≤ 0.0000820303) hsg1 2
    have hq : (6.7289e-9 : ℝ) ≤ 0.0000820303 ^ 2 := by norm_num
    linarith
  have hsg4 : sin ((-122.41 - -122.4194) * π / 180 / 2) ^ 2 ≤ 6.7291e-9 := by
    have h := pow_le_pow_left₀ (by linarith : (0 : ℝ) ≤
      sin ((-122.41 - -122.4194) * π / 180 / 2)) hsg2 2
    have hq : (0.0000820306 : ℝ) ^ 2 ≤ 6.7291e-9 := by norm_num
    linarith
  -- the two latitude cosines
  have hX1 : (0.659296 : ℝ) ≤ 37.7749 * π / 180 := by linarith
  have hX2 : (37.7749 : ℝ) * π / 180 ≤ 0.659297 := by linarith
  have hcX1 : (0.77282 : ℝ) ≤ cos (37.7749 * π / 180) := by
    have hb := cos_lower_bound hX1 hX2 (by norm_num) (by norm_num)
    have hq : (0.77282 : ℝ) ≤
        1 - 0.659297 ^ 2 / 2 - 0.659297 ^ 4 * (5 / 96) := by norm_num
    linarith
  have hcX2 : cos (37.7749 * π / 180) ≤ 0.79251 := by
    have hb := cos_upper_bound hX1 hX2 (by norm_num) (by norm_num)
    have hq : (1 : ℝ) - 0.659296 ^ 2 / 2 + 0.659297 ^ 4 * (5 / 96) ≤ 0.79251 := by
      norm_num
    linarith
  have hY1 : (0.659385 : ℝ) ≤ 37.78 * π / 180 := by linarith
  have hY2 : (37.78 : ℝ) * π / 180 ≤ 0.659386 := by linarith
  have hcY1 : (0.77275 : ℝ) ≤ cos (37.78 * π / 180) := by
    have hb := cos_lower_bound hY1 hY2 (by norm_num) (by norm_num)
    have hq : (0.77275 : ℝ) ≤
        1 - 0.659386 ^ 2 / 2 - 0.659386 ^ 4 * (5 / 96) := by norm_num
    linarith
  have hcY2 : cos (37.78 * π / 180) ≤ 0.79246 := by
    have hb := cos_upper_bound hY1 hY2 (by norm_num) (by norm_num)
    have hq : (1 : ℝ) - 0.659385 ^ 2 / 2 + 0.659386 ^ 4 * (5 / 96) ≤ 0.79246 := by
      norm_num
    linarith
  -- the product of the cosines
  have hP1 : (0.5971 : ℝ) ≤ cos (37.7749 * π / 180) * cos (37.78 * π / 180) := by
    have h := mul_le_mul hcX1 hcY1 (by norm_num) (by linarith)
    have hq : (0.5971 : ℝ) ≤ 0.77282 * 0.77275 := by norm_num
    linarith
  have hP2 : cos (37.7749 * π / 180) * cos (37.78 * π / 180) ≤ 0.6281 := by
    have h := mul_le_mul hcX2 hcY2 (by linarith) (by norm_num)
    have hq : (0.79251 : ℝ) * 0.79246 ≤ 0.6281 := by norm_num
    linarith
  -- the haversine value a
  have hT1 : (0.5971 : ℝ) * 6.7289e-9 ≤
      cos (37.7749 * π / 180) * cos (37.78 * π / 180) *
        sin ((-122.41 - -122.4194) * π / 180 / 2) ^ 2 :=
    mul_le_mul hP1 hsg3 (by norm_num) (by linarith)
  have hT2 : cos (37.7749 * π / 180) * cos (37.78 * π / 180) *
      sin ((-122.41 - -122.4194) * π / 180 / 2) ^ 2 ≤ (0.6281 : ℝ) * 6.7291e-9 :=
    mul_le_mul hP2 hsg4 (sq_nonneg _) (by norm_num)
  have hA_lb : (5.998e-9 : ℝ) ≤ havA { latitude := 37.7749, longitude := -122.4194 }
      { latitude := 37.78, longitude := -122.41 } := by
    rw [hA_eq]
    have hq : (5.998e-9 : ℝ) ≤ 1.9807e-9 + 0.5971 * 6.7289e-9 := by norm_num
    linarith
  have hA_ub : havA { latitude := 37.7749, longitude := -122.4194 }
      { latitude := 37.78, longitude := -122.41 } ≤ (6.208e-9 : ℝ) := by
    rw [hA_eq]
    have hq : (1.9808e-9 : ℝ) + 0.6281 * 6.7291e-9 ≤ 6.208e-9 := by norm_num
    linarith
  -- square root and arcsine
  have hA0 := havA_nonneg { latitude := 37.7749, longitude := -122.4194 }
    { latitude := 37.78, longitude := -122.41 }
  have hA1 := havA_le_one { latitude := 37.7749, longitude := -122.4194 }
    { latitude := 37.78, longitude := -122.41 }
  have hsq1 : (0.0000774 : ℝ) ≤ Real.sqrt
      (havA { latitude := 37.7749, longitude := -122.4194 }
        { latitude := 37.78, longitude := -122.41 }) :=
    Real.le_sqrt_of_sq_le (by
      have hq : (0.0000774 : ℝ) ^ 2 ≤ 5.998e-9 := by norm_num
      linarith)
  have hsq2 : Real.sqrt (havA { latitude := 37.7749, longitude := -122.4194 }
      { latitude := 37.78, longitude := -122.41 }) ≤ 0.0000788 :=
    Real.sqrt_le_iff.mpr ⟨by norm_num, by
      have hq : (6.208e-9 : ℝ) ≤ 0.0000788 ^ 2 := by norm_num
      linarith⟩
  have hsql1 : Real.sqrt (havA { latitude := 37.7749, longitude := -122.4194 }
      { latitude := 37.78, longitude := -122.41 }) ≤ 1 := by
    rw [show (1 : ℝ) = Real.sqrt 1 from Real.sqrt_one.symm]
    exact Real.sqrt_le_sqrt hA1
  have harc1 : (0.0000774 : ℝ) ≤ arcsin (Real.sqrt
      (havA { latitude := 37.7749, longitude := -122.4194 }
        { latitude := 37.78, longitude := -122.41 })) :=
    le_trans hsq1 (arcsin_ge_self (Real.sqrt_nonneg _) hsql1)
  have harc2 : arcsin (Real.sqrt
      (havA { latitude := 37.7749, longitude := -122.4194 }
        { latitude := 37.78, longitude := -122.41 })) ≤ 0.000079 := by
    apply arcsin_le_of_le_sin _ (by norm_num) (by linarith)
    have hb := sin_lower_bound (le_refl (0.000079 : ℝ)) (le_refl (0.000079 : ℝ))
      (by norm_num) (by norm_num)
    have hq : (0.0000788 : ℝ) ≤
        0.000079 - 0.000079 ^ 3 / 6 - 0.000079 ^ 4 * (5 / 96) := by norm_num
    linarith
  have hd : getDistanceMiles { latitude := 37.7749, longitude := -122.4194 }
      { latitude := 37.78, longitude := -122.41 } =
      3958.8 * (2 * arcsin (Real.sqrt
        (havA { latitude := 37.7749, longitude := -122.4194 }
          { latitude := 37.78, longitude := -122.41 }))) := by
    unfold getDistanceMiles EARTH_RADIUS_MILES
    rw [atan2_sqrt_eq_arcsin _ hA0 hA1]
  rw [hd]
  constructor <;> linarith

/-- Claim C6: getDistanceMiles equals the standard haversine
great-circle distance in miles with Earth radius 3958.8; the candidate
(37.78, -122.41) lies about 0.6 miles (between 0.5 and 0.7 miles, hence
included within a 5-mile radius) from the center (37.7749, -122.4194),
and the candidate (38.0, -122.0) lies more than 5 miles away
(excluded). -/
theorem c6_haversine_distance :
    (∀ p q : Coordinates, getDistanceMiles p q = haversineSpec p q) ∧
      0.5 < getDistanceMiles { latitude := 37.7749, longitude := -122.4194 }
        { latitude := 37.78, longitude := -122.41 } ∧
      getDistanceMiles { latitude := 37.7749, longitude := -122.4194 }
        { latitude := 37.78, longitude := -122.41 } < 0.7 ∧
      getDistanceMiles { latitude := 37.7749, longitude := -122.4194 }
        { latitude := 37.78, longitude := -122.41 } ≤ 5 ∧
      5 < getDistanceMiles { latitude := 37.7749, longitude := -122.4194 }
        { latitude := 38, longitude := -122 } :=
  ⟨getDistanceMiles_eq_haversineSpec, near_distance_bounds.1, near_distance_bounds.2,
    le_of_lt (lt_of_lt_of_le near_distance_bounds.2 (by norm_num)),
    far_distance_gt_five⟩

end MetravelExplore
